import Mathlib

/-!
Shallow embedding of the Staxastic price-tracking service.

Source files embedded here:
* `app/services/common.py` — `get_bybit_price`, `update_price_periodically`
  (with its inner `safe_cell_update`), the horizon table `intervals`,
  the percentage-change computation and the retry loop;
* `app/routers/webhookbuy.py` — the task-registry update performed by the
  `/webhookbuy` handler when it spawns a tracking task.

Modelling conventions: Python floats are idealised as `ℚ`; timestamps are
epoch seconds (`Int`); division that can raise `ZeroDivisionError` returns
`Option`; external effects (the Google Sheets backend, the Bybit HTTP
endpoint, `datetime.now`, `strptime`, the builtin `float` applied to a
string) are oracles packaged in an `Env` record, one outcome per call site.
Python strings are `String` (or `List Char` where character-level
operations matter); `str.lower`/`str.upper` are mapped characterwise.
-/

/-- Python true division: `a / b` raises `ZeroDivisionError` when `b = 0`,
so the result is an `Option`. -/
def pydiv (a b : ℚ) : Option ℚ :=
  if b = 0 then none else some (a / b)

/-- Round a rational to the nearest integer, ties to even, as Python's
builtin `round` does. -/
def roundHalfEven (q : ℚ) : ℤ :=
  if q - ⌊q⌋ < 1/2 then ⌊q⌋
  else if 1/2 < q - ⌊q⌋ then ⌊q⌋ + 1
  else if ⌊q⌋ % 2 = 0 then ⌊q⌋ else ⌊q⌋ + 1

/-- Python `round(x, 6)`: six decimal places, ties to even. -/
def pyRound6 (q : ℚ) : ℚ :=
  ((roundHalfEven (q * 1000000) : ℤ) : ℚ) / 1000000

/-- Python `str.lower`, characterwise. -/
def pyLower (s : String) : String := ⟨s.data.map Char.toLower⟩

/-- `change_pct` as computed in `update_price_periodically`
(common.py lines 144-145):
`((current_price - entry_price) / entry_price) * 100` when
`action.lower() == 'buy'`, otherwise
`((entry_price - current_price) / entry_price) * 100`.
A zero divisor raises, hence `Option`. -/
def change_pct (action : String) (entry_price current_price : ℚ) : Option ℚ :=
  if pyLower action = "buy" then
    (pydiv (current_price - entry_price) entry_price).map (fun r => r * 100)
  else
    (pydiv (entry_price - current_price) entry_price).map (fun r => r * 100)

/-- `change_decimal = round(change_pct / 100, 6)` (common.py line 146). -/
def change_decimal (action : String) (entry_price current_price : ℚ) : Option ℚ :=
  (change_pct action entry_price current_price).map (fun c => pyRound6 (c / 100))

/-- The horizon table `intervals` of `update_price_periodically`
(common.py lines 122-128), verbatim: ten `(label, offset-seconds)` pairs. -/
def intervals : List (String × Nat) :=
  [("1h", 60 * 60), ("2h", 2 * 60 * 60),
   ("4h", 4 * 60 * 60), ("8h", 8 * 60 * 60),
   ("12h", 12 * 60 * 60), ("1d", 24 * 60 * 60),
   ("3d", 3 * 24 * 60 * 60), ("7d", 7 * 24 * 60 * 60),
   ("14d", 14 * 24 * 60 * 60), ("30d", 30 * 24 * 60 * 60)]

/-- Python `list.index` (first position of `p`; every lookup in this
development is on a list that contains `p`). -/
def list_index (p : String × Nat) : List (String × Nat) → Nat
  | [] => 0
  | q :: rest => if q = p then 0 else 1 + list_index p rest

/-- `interval_idx = intervals.index((name, delay))` (common.py line 148). -/
def interval_idx (p : String × Nat) : Nat := list_index p intervals

/-- `price_col = 8 + interval_idx * 2` (common.py line 149). -/
def price_col (p : String × Nat) : Nat := 8 + interval_idx p * 2

/-- `pct_col = price_col + 1` (common.py line 150). -/
def pct_col (p : String × Nat) : Nat := price_col p + 1

/-- Observable result of one `safe_cell_update` call: the returned boolean,
how many times the value was written (`sheet.update` succeeded), how many
`sheet.format` calls succeeded, how many `SHEETS_API_DELAY` pacing sleeps
ran, which exponential-backoff sleeps ran, and how many attempts the loop
used. -/
structure CellUpdateRes where
  ok : Bool
  writes : Nat
  fmtApplied : Nat
  pacing : Nat
  backoffs : List Nat
  attempts : Nat
deriving DecidableEq, Repr

/-- The attempt loop of `safe_cell_update` (common.py lines 87-104), run
over the list of remaining attempt indices (`range(max_retries)`); `fmtOk`
and `updOk` are oracles telling whether `sheet.format` / `sheet.update`
succeed on a given attempt.  An exception in `sheet.format` (when
`format_options` is passed) skips the value write for that attempt; the
final attempt (`attempt == max_retries - 1`, i.e. empty tail) returns
`False`; otherwise the loop sleeps `2 ** attempt` and retries. -/
def safe_cell_update_go (hasFmt : Bool) (fmtOk updOk : Nat → Bool) :
    List Nat → CellUpdateRes
  | [] => ⟨false, 0, 0, 0, [], 0⟩
  | attempt :: rest =>
    if hasFmt && !(fmtOk attempt) then
      if rest = [] then
        ⟨false, 0, 0, 0, [], 1⟩
      else
        let r := safe_cell_update_go hasFmt fmtOk updOk rest
        ⟨r.ok, r.writes, r.fmtApplied, r.pacing, 2 ^ attempt :: r.backoffs,
          r.attempts + 1⟩
    else
      let fmtCount := if hasFmt then 1 else 0
      if updOk attempt then
        ⟨true, 1, fmtCount, fmtCount + 1, [], 1⟩
      else
        if rest = [] then
          ⟨false, 0, fmtCount, fmtCount, [], 1⟩
        else
          let r := safe_cell_update_go hasFmt fmtOk updOk rest
          ⟨r.ok, r.writes, fmtCount + r.fmtApplied, fmtCount + r.pacing,
            2 ^ attempt :: r.backoffs, r.attempts + 1⟩

/-- `safe_cell_update` with `max_retries = 3`
(common.py lines 87-104, `for attempt in range(max_retries)`). -/
def safe_cell_update (hasFmt : Bool) (fmtOk updOk : Nat → Bool) : CellUpdateRes :=
  safe_cell_update_go hasFmt fmtOk updOk (List.range 3)

/-- Outcome of the initial `sheet.cell(row_index, 7).value` read
(common.py lines 108-115): an `APIError` whose text contains
"exceeds grid limits" (row gone), any other `APIError` (re-raised), or a
cell value (`None` for an empty cell, else a string). -/
inductive CellRead where
  | gridLimits
  | apiError
  | val (v : Option String)
deriving DecidableEq

/-- Oracle environment for one `update_price_periodically` run: outcomes of
every external call, indexed by horizon position where the call sits in
the loop. -/
structure Env where
  cellRead : CellRead
  parseTime : String → Option Int
  nowAt : Nat → Int
  fetch : Nat → Option ℚ
  fmtOk : Nat → Nat → Bool
  pctUpdOk : Nat → Nat → Bool
  priceUpdOk : Nat → Nat → Bool

/-- What one horizon iteration did after its (possible) wait:
`fetchError` — `get_bybit_price` raised, iteration abandoned by the inner
`except`/`continue`; `zeroEntrySkip` — the in-loop `entry_price == 0`
check hit `continue`; `divError` — the change computation raised
`ZeroDivisionError`; `attempted` — the two `safe_cell_update` calls were
made, recording the target cells, the sampled price, the value destined
for the percentage slot, and both call results. -/
inductive HorizonOutcome where
  | fetchError
  | zeroEntrySkip
  | divError
  | attempted (row priceCol pctCol : Nat) (current_price change_dec : ℚ)
      (pctRes priceRes : CellUpdateRes)
deriving DecidableEq

/-- Result of one horizon iteration: the sleep taken (duration, only when
strictly positive) and the outcome after waking. -/
structure HorizonRes where
  slept : Option Int
  outcome : HorizonOutcome
deriving DecidableEq

/-- Body of one iteration of the `for name, delay in intervals` loop
(common.py lines 130-180), at loop position `k`, for the pair
`p = (name, delay)`.  Mirrors the source order: compute `target_time` and
`sleep_duration`, sleep only if `sleep_duration > 0`, fetch the price
(failure → `except`/`continue`), check `entry_price == 0`, compute
`change_pct`/`change_decimal`, resolve the two columns, then run the
formatting+percentage `safe_cell_update` and the price `safe_cell_update`. -/
def processOne (env : Env) (row_index : Nat) (entry_price : ℚ) (action : String)
    (entry_time : Int) (k : Nat) (p : String × Nat) : String × HorizonRes :=
  let target_time := entry_time + (p.2 : Int)
  let sleep_duration := target_time - env.nowAt k
  let slept := if 0 < sleep_duration then some sleep_duration else none
  match env.fetch k with
  | none => (p.1, ⟨slept, .fetchError⟩)
  | some current_price =>
    if entry_price = 0 then (p.1, ⟨slept, .zeroEntrySkip⟩)
    else
      match change_pct action entry_price current_price with
      | none => (p.1, ⟨slept, .divError⟩)
      | some cp =>
        let cd := pyRound6 (cp / 100)
        let fmtRes := safe_cell_update true (env.fmtOk k) (env.pctUpdOk k)
        let priceRes := safe_cell_update false (env.fmtOk k) (env.priceUpdOk k)
        (p.1, ⟨slept, .attempted row_index (price_col p) (pct_col p)
          current_price cd fmtRes priceRes⟩)

/-- The horizon loop: iterate `processOne` over the interval list in list
order, threading the loop position used to index the oracles. -/
def loopGo (env : Env) (row_index : Nat) (entry_price : ℚ) (action : String)
    (entry_time : Int) : Nat → List (String × Nat) → List (String × HorizonRes)
  | _, [] => []
  | k, p :: rest =>
    processOne env row_index entry_price action entry_time k p ::
      loopGo env row_index entry_price action entry_time (k + 1) rest

/-- How an `update_price_periodically` run ended: early `return` on the
"exceeds grid limits" `APIError` (row gone); the outer `except` swallowing
a fatal pre-loop error (re-raised `APIError`, non-string cell value,
`strptime` failure); or the loop ran to completion over all horizons. -/
inductive RunOutcome where
  | rowNotFound
  | fatal
  | completed (hs : List (String × HorizonRes))
deriving DecidableEq

/-- `update_price_periodically` (common.py lines 80-186).  Returns the run
outcome together with the task registry after the `finally` block, which
pops `symbol` from `update_price_periodically.update_tasks` on every exit
path (the registry attribute exists: webhookbuy.py line 17 creates it). -/
def update_price_periodically (env : Env) (row_index : Nat) (symbol : String)
    (entry_price : ℚ) (action : String) (update_tasks : String → Option Nat) :
    RunOutcome × (String → Option Nat) :=
  let entry_price := if entry_price = 0 then 1/1000000 else entry_price
  let outcome : RunOutcome :=
    match env.cellRead with
    | .gridLimits => .rowNotFound
    | .apiError => .fatal
    | .val none => .fatal
    | .val (some s) =>
      match env.parseTime s with
      | none => .fatal
      | some entry_time =>
        .completed (loopGo env row_index entry_price action entry_time 0 intervals)
  (outcome, fun t => if t = symbol then none else update_tasks t)

/-- The registry update of the `/webhookbuy` handler
(webhookbuy.py lines 119-122): `asyncio.create_task(...)` starts the new
task, then `update_price_periodically.update_tasks[symbol] = task`
overwrites the dictionary slot.  No cancellation of any previous task
appears in the source, so the running-set only grows. -/
def webhook_register (update_tasks : String → Option Nat) (running : Nat → Bool)
    (symbol : String) (task : Nat) : (String → Option Nat) × (Nat → Bool) :=
  (fun s => if s = symbol then some task else update_tasks s,
   fun t => if t = task then true else running t)

/-- FastAPI `HTTPException` as raised by `get_bybit_price`. -/
structure HTTPExc where
  status_code : Nat
  detail : String
deriving DecidableEq

/-- JSON values, for the Bybit response body. -/
inductive Json where
  | null
  | bool (b : Bool)
  | num (q : ℚ)
  | str (s : String)
  | arr (xs : List Json)
  | obj (fields : List (String × Json))

/-- Dictionary lookup on a JSON object (`None` on non-objects). -/
def Json.lookup (k : String) : Json → Option Json
  | .obj fields => fields.lookup k
  | _ => none

/-- `isinstance(·, dict)`. -/
def Json.isDict : Json → Bool
  | .obj _ => true
  | _ => false

/-- Outcome of the outbound `requests.get` plus `raise_for_status` and
`.json()` (common.py lines 26-36): a non-2xx HTTP status with body text
(`HTTPError`), a body that fails JSON decoding (a `ValueError`), any other
exception (network failure, timeout, ...), or a decoded JSON body. -/
inductive HttpOutcome where
  | httpError (status : Nat) (text : String)
  | jsonDecodeFail
  | otherException
  | ok (body : Json)

/-- Python `str.strip()` on a character list. -/
def strip (s : List Char) : List Char :=
  ((s.dropWhile Char.isWhitespace).reverse.dropWhile Char.isWhitespace).reverse

/-- `get_bybit_price` (common.py lines 17-77).  `symbol` is the input
string as characters; `resp` is the outcome of the outbound request
(consulted only if the request is issued); `floatOf` models the builtin
`float` applied to a string (`None` = `ValueError`).  Returns whether the
outbound request was issued, and the price or the `HTTPException` raised.
Error mapping as in the source: `HTTPError` → 502 `"Bybit API error: ..."`;
`ValueError` → 503 `"Invalid Bybit data format: ..."`; anything else → 503
`"Failed to get price from Bybit"`. -/
def get_bybit_price (symbol : List Char) (resp : HttpOutcome)
    (floatOf : String → Option ℚ) : Bool × Except HTTPExc ℚ :=
  let clean_symbol := strip (symbol.map Char.toUpper)
  if clean_symbol = [] then
    (false, .error ⟨503, "Invalid Bybit data format: Empty symbol provided"⟩)
  else
    let trading_pair := String.mk (clean_symbol ++ "USDT".data)
    match resp with
    | .httpError status text =>
      (true, .error ⟨502, "Bybit API error: " ++ toString status ++ " - " ++ text⟩)
    | .jsonDecodeFail =>
      (true, .error ⟨503, "Invalid Bybit data format: JSON decode error"⟩)
    | .otherException =>
      (true, .error ⟨503, "Failed to get price from Bybit"⟩)
    | .ok data =>
      if !data.isDict then
        (true, .error ⟨503,
          "Invalid Bybit data format: Invalid API response: not a dictionary"⟩)
      else
        match data.lookup "result" with
        | none => (true, .error ⟨503,
            "Invalid Bybit data format: Invalid API response: missing or invalid \x27result\x27"⟩)
        | some result =>
          if !result.isDict then
            (true, .error ⟨503,
              "Invalid Bybit data format: Invalid API response: missing or invalid \x27result\x27"⟩)
          else
            match result.lookup "list" with
            | some (.arr []) => (true, .error ⟨503,
                "Invalid Bybit data format: No trading data available for " ++ trading_pair⟩)
            | some (.arr (ticker :: _)) =>
              (match ticker.lookup "lastPrice" with
              | none => (true, .error ⟨503,
                  "Invalid Bybit data format: Ticker data missing \x27lastPrice\x27 field"⟩)
              | some (.num q) => (true, .ok q)
              | some (.bool b) => (true, .ok (if b then 1 else 0))
              | some (.str s) =>
                (match floatOf s with
                | some q => (true, .ok q)
                | none => (true, .error ⟨503,
                    "Invalid Bybit data format: could not convert string to float: " ++ s⟩))
              | some _ => (true, .error ⟨503, "Failed to get price from Bybit"⟩))
            | _ => (true, .error ⟨503,
                "Invalid Bybit data format: Invalid API response: missing or invalid \x27list\x27"⟩)

/-! ### Helper lemmas -/

lemma pyLower_buy : pyLower "buy" = "buy" := by decide

lemma pyLower_sell : pyLower "sell" = "sell" := by decide

lemma sell_ne_buy : pyLower "sell" ≠ "buy" := by decide

lemma str_sell_ne_buy : ("sell" : String) ≠ "buy" := by decide

lemma processOne_fst (env : Env) (row_index : Nat) (entry_price : ℚ)
    (action : String) (entry_time : Int) (k : Nat) (p : String × Nat) :
    (processOne env row_index entry_price action entry_time k p).1 = p.1 := by
  unfold processOne
  rcases env.fetch k with _ | q
  · rfl
  · simp only []
    split
    · rfl
    · rcases change_pct action entry_price q with _ | cp <;> rfl

lemma loopGo_map_fst (env : Env) (row_index : Nat) (entry_price : ℚ)
    (action : String) (entry_time : Int) :
    ∀ (l : List (String × Nat)) (k : Nat),
      (loopGo env row_index entry_price action entry_time k l).map Prod.fst
        = l.map Prod.fst := by
  intro l
  induction l with
  | nil => intro k; rfl
  | cons p rest ih =>
    intro k
    simp [loopGo, processOne_fst, ih (k + 1)]

lemma loopGo_get? (env : Env) (row_index : Nat) (entry_price : ℚ)
    (action : String) (entry_time : Int) :
    ∀ (l : List (String × Nat)) (k j : Nat),
      (loopGo env row_index entry_price action entry_time k l).get? j
        = (l.get? j).map
            (fun p => processOne env row_index entry_price action entry_time (k + j) p) := by
  intro l
  induction l with
  | nil => intro k j; simp [loopGo]
  | cons p rest ih =>
    intro k j
    cases j with
    | zero => simp [loopGo]
    | succ j =>
      simp only [loopGo, List.get?]
      rw [ih (k + 1) j]
      have h : k + 1 + j = k + (j + 1) := by omega
      rw [h]

lemma loopGo_length (env : Env) (row_index : Nat) (entry_price : ℚ)
    (action : String) (entry_time : Int) :
    ∀ (l : List (String × Nat)) (k : Nat),
      (loopGo env row_index entry_price action entry_time k l).length = l.length := by
  intro l
  induction l with
  | nil => intro k; rfl
  | cons p rest ih => intro k; simp [loopGo, ih (k + 1)]

lemma col_at_position :
    ∀ j p, intervals.get? j = some p → price_col p = 8 + 2 * j ∧ pct_col p = 9 + 2 * j := by
  intro j p h
  have hj : j < intervals.length := by
    by_contra hge
    rw [List.get?_eq_none.mpr (by omega)] at h
    exact Option.noConfusion h
  have hj10 : j < 10 := by simpa [intervals] using hj
  interval_cases j <;>
    (simp only [intervals, List.get?] at h
     injection h with h
     subst h
     exact ⟨by decide, by decide⟩)

lemma range3 : List.range 3 = [0, 1, 2] := rfl

lemma scu_fmt_all_fail (fmtOk updOk : Nat → Bool)
    (h0 : fmtOk 0 = false) (h1 : fmtOk 1 = false) (h2 : fmtOk 2 = false) :
    safe_cell_update true fmtOk updOk = ⟨false, 0, 0, 0, [1, 2], 3⟩ := by
  simp [safe_cell_update, range3, safe_cell_update_go, h0, h1, h2]

lemma scu_noFmt_fmt_irrel (f g updOk : Nat → Bool) :
    safe_cell_update false f updOk = safe_cell_update false g updOk := by
  simp only [safe_cell_update, range3]
  simp [safe_cell_update_go]

lemma scu_noFmt_first_success (f updOk : Nat → Bool) (h : updOk 0 = true) :
    safe_cell_update false f updOk = ⟨true, 1, 0, 1, [], 1⟩ := by
  simp [safe_cell_update, range3, safe_cell_update_go, h]

lemma scu_fmt_first_success (fmtOk updOk : Nat → Bool)
    (hf : fmtOk 0 = true) (hu : updOk 0 = true) :
    safe_cell_update true fmtOk updOk = ⟨true, 1, 1, 2, [], 1⟩ := by
  simp [safe_cell_update, range3, safe_cell_update_go, hf, hu]

lemma processOne_slept (env : Env) (row_index : Nat) (entry_price : ℚ)
    (action : String) (entry_time : Int) (k : Nat) (p : String × Nat) :
    (processOne env row_index entry_price action entry_time k p).2.slept
      = if 0 < entry_time + (p.2 : Int) - env.nowAt k
        then some (entry_time + (p.2 : Int) - env.nowAt k) else none := by
  unfold processOne
  rcases env.fetch k with _ | q
  · rfl
  · simp only []
    split
    · rfl
    · rcases change_pct action entry_price q with _ | cp <;> rfl

lemma change_pct_of_ne_zero (action : String) (entry_price current_price : ℚ)
    (h : entry_price ≠ 0) :
    change_pct action entry_price current_price
      = some ((if pyLower action = "buy"
               then (current_price - entry_price) / entry_price
               else (entry_price - current_price) / entry_price) * 100) := by
  unfold change_pct pydiv
  split <;> simp [h]

lemma processOne_attempted (env : Env) (row_index : Nat) (entry_price : ℚ)
    (action : String) (entry_time : Int) (k : Nat) (p : String × Nat) (q : ℚ)
    (hf : env.fetch k = some q) (he : entry_price ≠ 0) :
    (processOne env row_index entry_price action entry_time k p).2.outcome
      = HorizonOutcome.attempted row_index (price_col p) (pct_col p) q
          (pyRound6 ((if pyLower action = "buy"
                      then (q - entry_price) / entry_price
                      else (entry_price - q) / entry_price) * 100 / 100))
          (safe_cell_update true (env.fmtOk k) (env.pctUpdOk k))
          (safe_cell_update false (env.fmtOk k) (env.priceUpdOk k)) := by
  unfold processOne
  rw [hf]
  simp only [he, if_false]
  rw [change_pct_of_ne_zero action entry_price q he]

/-- A concrete oracle environment in which every external call succeeds:
the timestamp cell holds a string that parses, every fetch returns 51000,
and all sheet operations succeed. -/
def envAllOk : Env :=
  ⟨CellRead.val (some "2024-01-01 00:00:00"), fun _ => some 1704056400,
   fun _ => 1704060000, fun _ => some 51000,
   fun _ _ => true, fun _ _ => true, fun _ _ => true⟩

/-- Like `envAllOk` but every `sheet.format` call fails. -/
def envFmtFail : Env :=
  ⟨CellRead.val (some "2024-01-01 00:00:00"), fun _ => some 1704056400,
   fun _ => 1704060000, fun _ => some 51000,
   fun _ _ => false, fun _ _ => true, fun _ _ => true⟩

/-! ### Claim theorems -/

/-- C1 (counterexample): the value recorded to the percentage slot is NOT
always the fraction `(sample - entry) / entry` itself: for a Long (buy)
signal with entry price 3 and sampled price 4 the fraction is `1/3`, but
the code stores `round(change_pct / 100, 6) = 0.333333 ≠ 1/3`. -/
theorem c1_counterexample :
    change_decimal "buy" 3 4 = some (333333 / 1000000) ∧
    (333333 / 1000000 : ℚ) ≠ ((4 : ℚ) - 3) / 3 := by
  constructor
  · rw [change_decimal, change_pct_of_ne_zero "buy" 3 4 (by norm_num)]
    simp only [pyLower_buy, if_pos, Option.map_some']
    norm_num [pyRound6, roundHalfEven]
  · norm_num

/-- C1 (amended): for every direction and entry price > 0, the recorded
percentage-slot value is the directional fraction `(sample - entry)/entry`
(Long) resp. `(entry - sample)/entry` (Short) rounded to 6 decimal places
(not multiplied by 100); the computed change is positive for Long with
sample > entry and negative for Short with sample > entry; and entry
50000, Long, sample 51000 records exactly +0.02. -/
theorem c1_amended (entry_price current_price : ℚ) (h : 0 < entry_price) :
    change_decimal "buy" entry_price current_price
      = some (pyRound6 ((current_price - entry_price) / entry_price)) ∧
    change_decimal "sell" entry_price current_price
      = some (pyRound6 ((entry_price - current_price) / entry_price)) ∧
    (entry_price < current_price →
      ∃ cp, change_pct "buy" entry_price current_price = some cp ∧ 0 < cp) ∧
    (entry_price < current_price →
      ∃ cp, change_pct "sell" entry_price current_price = some cp ∧ cp < 0) ∧
    change_decimal "buy" 50000 51000 = some (2 / 100) := by
  have hne : entry_price ≠ 0 := ne_of_gt h
  refine ⟨?_, ?_, ?_, ?_, ?_⟩
  · rw [change_decimal, change_pct_of_ne_zero _ _ _ hne]
    simp only [pyLower_buy, if_pos, Option.map_some']
    rw [mul_div_cancel_right₀ _ (by norm_num : (100 : ℚ) ≠ 0)]
  · rw [change_decimal, change_pct_of_ne_zero _ _ _ hne]
    simp only [pyLower_sell, Option.map_some']
    rw [if_neg str_sell_ne_buy,
      mul_div_cancel_right₀ _ (by norm_num : (100 : ℚ) ≠ 0)]
  · intro hlt
    rw [change_pct_of_ne_zero _ _ _ hne]
    simp only [pyLower_buy, if_pos, Option.map_some']
    exact ⟨_, rfl, mul_pos (div_pos (sub_pos.2 hlt) h) (by norm_num)⟩
  · intro hlt
    rw [change_pct_of_ne_zero _ _ _ hne]
    simp only [pyLower_sell, Option.map_some']
    rw [if_neg str_sell_ne_buy]
    exact ⟨_, rfl, mul_neg_of_neg_of_pos
      (div_neg_of_neg_of_pos (sub_neg.2 hlt) h) (by norm_num)⟩
  · rw [change_decimal, change_pct_of_ne_zero _ _ _ (by norm_num)]
    simp only [pyLower_buy, if_pos, Option.map_some']
    norm_num [pyRound6, roundHalfEven]

/-- C1 (witness): the amended theorem applied at entry 50000, Long,
sample 51000, where the recorded value is exactly +0.02. -/
theorem c1_amended_witness :
    (0 : ℚ) < 50000 ∧ change_decimal "buy" 50000 51000 = some (2 / 100) :=
  ⟨by norm_num, (c1_amended 50000 51000 (by norm_num)).2.2.2.2⟩

/-- C2 (code evaluation at the failing input): registering a second "BTC"
signal while the first tracking task (id 0) is in flight leaves BOTH task
0 and task 1 running, with only task 1 registered — two active instances
for the symbol, the old one neither cancelled nor tracked.  The registry
update of webhookbuy.py lines 119-122 overwrites the dictionary slot
without cancelling the displaced task. -/
theorem c2_duplicate_signal_leak :
    ((webhook_register
        (webhook_register (fun _ => none) (fun _ => false) "BTC" 0).1
        (webhook_register (fun _ => none) (fun _ => false) "BTC" 0).2
        "BTC" 1).2 0 = true) ∧
    ((webhook_register
        (webhook_register (fun _ => none) (fun _ => false) "BTC" 0).1
        (webhook_register (fun _ => none) (fun _ => false) "BTC" 0).2
        "BTC" 1).2 1 = true) ∧
    ((webhook_register
        (webhook_register (fun _ => none) (fun _ => false) "BTC" 0).1
        (webhook_register (fun _ => none) (fun _ => false) "BTC" 0).2
        "BTC" 1).1 "BTC" = some 1) ∧
    (0 : Nat) ≠ 1 :=
  ⟨rfl, rfl, rfl, by decide⟩

/-- C3 (counterexample): a persistent formatting failure DOES prevent the
percentage value from being recorded.  With `sheet.format` failing on all
three attempts while every `sheet.update` would succeed, the
formatting+percentage call performs zero value writes and returns `False`;
the separate price call (no format options) still writes once. -/
theorem c3_counterexample :
    (safe_cell_update true (fun _ => false) (fun _ => true)).writes = 0 ∧
    (safe_cell_update true (fun _ => false) (fun _ => true)).ok = false ∧
    (safe_cell_update false (fun _ => false) (fun _ => true)).writes = 1 :=
  ⟨rfl, rfl, rfl⟩

/-- C3 (amended): when the price fetch for a horizon succeeds and
`sheet.format` fails on every attempt, the percentage slot receives no
write (its combined format+write call returns with zero writes), while the
sampled-price write is unaffected by formatting — it is an independent
`safe_cell_update` call without format options and writes the price
whenever its own first update attempt succeeds. -/
theorem c3_amended (env : Env) (row_index : Nat) (entry_price : ℚ)
    (action : String) (entry_time : Int) (k : Nat) (p : String × Nat) (q : ℚ)
    (hf : env.fetch k = some q) (he : entry_price ≠ 0)
    (hfmt : ∀ a, a < 3 → env.fmtOk k a = false) :
    ∃ cd, (processOne env row_index entry_price action entry_time k p).2.outcome
        = HorizonOutcome.attempted row_index (price_col p) (pct_col p) q cd
            ⟨false, 0, 0, 0, [1, 2], 3⟩
            (safe_cell_update false (fun _ => true) (env.priceUpdOk k)) ∧
      (env.priceUpdOk k 0 = true →
        (safe_cell_update false (fun _ => true) (env.priceUpdOk k)).writes = 1) := by
  have h1 := processOne_attempted env row_index entry_price action entry_time k p q hf he
  rw [scu_fmt_all_fail _ _ (hfmt 0 (by norm_num)) (hfmt 1 (by norm_num))
      (hfmt 2 (by norm_num)),
    scu_noFmt_fmt_irrel (env.fmtOk k) (fun _ => true) (env.priceUpdOk k)] at h1
  exact ⟨_, h1, fun hp => by rw [scu_noFmt_first_success _ _ hp]⟩

/-- C3 (witness): the amended theorem at a concrete environment where all
formatting calls fail and all value writes succeed. -/
theorem c3_amended_witness :
    (envFmtFail.fetch 0 = some 51000) ∧ ((50000 : ℚ) ≠ 0) ∧
    (∀ a, a < 3 → envFmtFail.fmtOk 0 a = false) ∧
    (∃ cd, (processOne envFmtFail 2 50000 "buy" 1704056400 0 ("1h", 3600)).2.outcome
        = HorizonOutcome.attempted 2 (price_col ("1h", 3600)) (pct_col ("1h", 3600))
            51000 cd ⟨false, 0, 0, 0, [1, 2], 3⟩
            (safe_cell_update false (fun _ => true) (envFmtFail.priceUpdOk 0)) ∧
      (envFmtFail.priceUpdOk 0 0 = true →
        (safe_cell_update false (fun _ => true) (envFmtFail.priceUpdOk 0)).writes = 1)) :=
  ⟨rfl, by norm_num, fun _ _ => rfl,
    c3_amended envFmtFail 2 50000 "buy" 1704056400 0 ("1h", 3600) 51000 rfl
      (by norm_num) (fun _ _ => rfl)⟩

/-- C7: the scheduler's horizon table has exactly the ten labels 1h, 2h,
4h, 8h, 12h, 1d, 3d, 7d, 14d, 30d with strictly ascending offsets; the
horizon at 0-based position `i` targets price column `8 + 2*i` and
percentage column `9 + 2*i` (two output slots per horizon, position
encoding field identity); and the loop processes the table in exactly its
list order. -/
theorem c7_horizon_layout :
    intervals.map Prod.fst
      = ["1h", "2h", "4h", "8h", "12h", "1d", "3d", "7d", "14d", "30d"] ∧
    intervals.map Prod.snd
      = [3600, 7200, 14400, 28800, 43200, 86400, 259200, 604800, 1209600, 2592000] ∧
    List.Pairwise (fun a b => a < b) (intervals.map Prod.snd) ∧
    (∀ i : Fin intervals.length,
      price_col (intervals.get i) = 8 + 2 * i.val ∧
      pct_col (intervals.get i) = 9 + 2 * i.val) ∧
    ∀ (env : Env) (row_index : Nat) (entry_price : ℚ) (action : String)
      (entry_time : Int) (k : Nat),
      (loopGo env row_index entry_price action entry_time k intervals).map Prod.fst
        = intervals.map Prod.fst := by
  refine ⟨rfl, rfl, by decide, by decide, ?_⟩
  intro env row_index entry_price action entry_time k
  exact loopGo_map_fst env row_index entry_price action entry_time intervals k

/-- C8: the write primitive `safe_cell_update` makes up to 3 attempts in
total; between failed attempts it sleeps `2 ** attempt` seconds (the
backoff doubles each attempt: 1s then 2s); it reports failure only after
the third failed attempt, and a success on any attempt absorbs all earlier
transient failures and reports success. -/
theorem c8_retry_policy (fmtOk updOk : Nat → Bool) :
    ((∀ a, a < 3 → updOk a = false) →
      safe_cell_update false fmtOk updOk
        = ⟨false, 0, 0, 0, [2 ^ 0, 2 ^ 1], 3⟩) ∧
    ∀ k, k < 3 → (∀ a, a < k → updOk a = false) → updOk k = true →
      safe_cell_update false fmtOk updOk
        = ⟨true, 1, 0, 1, (List.range k).map (fun a => 2 ^ a), k + 1⟩ := by
  constructor
  · intro h
    simp [safe_cell_update, range3, safe_cell_update_go,
      h 0 (by norm_num), h 1 (by norm_num), h 2 (by norm_num)]
  · intro k hk hprev hsucc
    interval_cases k
    · simp [safe_cell_update, range3, safe_cell_update_go, hsucc,
        List.range_zero]
    · simp [safe_cell_update, range3, safe_cell_update_go, hsucc,
        hprev 0 (by norm_num), List.range_succ, List.range_zero]
    · simp [safe_cell_update, range3, safe_cell_update_go, hsucc,
        hprev 0 (by norm_num), hprev 1 (by norm_num),
        List.range_succ, List.range_zero]

/-- C8 (witness): with every update attempt failing, the primitive makes
exactly 3 attempts, backs off 1s then 2s, and reports failure. -/
theorem c8_retry_policy_witness :
    safe_cell_update false (fun _ => true) (fun _ => false)
      = ⟨false, 0, 0, 0, [2 ^ 0, 2 ^ 1], 3⟩ :=
  (c8_retry_policy (fun _ => true) (fun _ => false)).1 (fun _ _ => rfl)

lemma processOne_fetch_none (env : Env) (row_index : Nat) (entry_price : ℚ)
    (action : String) (entry_time : Int) (k : Nat) (p : String × Nat)
    (hf : env.fetch k = none) :
    processOne env row_index entry_price action entry_time k p
      = (p.1, ⟨if 0 < entry_time + (p.2 : Int) - env.nowAt k
               then some (entry_time + (p.2 : Int) - env.nowAt k) else none,
          HorizonOutcome.fetchError⟩) := by
  unfold processOne
  rw [hf]

lemma processOne_fetch_some (env : Env) (row_index : Nat) (entry_price : ℚ)
    (action : String) (entry_time : Int) (k : Nat) (p : String × Nat) (q : ℚ)
    (hf : env.fetch k = some q) (hep : entry_price ≠ 0) :
    processOne env row_index entry_price action entry_time k p
      = (p.1, ⟨if 0 < entry_time + (p.2 : Int) - env.nowAt k
               then some (entry_time + (p.2 : Int) - env.nowAt k) else none,
          HorizonOutcome.attempted row_index (price_col p) (pct_col p) q
            (pyRound6 ((if pyLower action = "buy"
                        then (q - entry_price) / entry_price
                        else (entry_price - q) / entry_price) * 100 / 100))
            (safe_cell_update true (env.fmtOk k) (env.pctUpdOk k))
            (safe_cell_update false (env.fmtOk k) (env.priceUpdOk k))⟩) := by
  unfold processOne
  rw [hf]
  simp only [hep, if_false]
  rw [change_pct_of_ne_zero action entry_price q hep]

lemma loopGo_no_div (env : Env) (row_index : Nat) (entry_price : ℚ)
    (action : String) (entry_time : Int) (hep : entry_price ≠ 0) :
    ∀ (l : List (String × Nat)) (k : Nat),
      ∀ r ∈ loopGo env row_index entry_price action entry_time k l,
        r.2.outcome ≠ HorizonOutcome.divError ∧
        r.2.outcome ≠ HorizonOutcome.zeroEntrySkip := by
  intro l
  induction l with
  | nil => intro k r hr; simp [loopGo] at hr
  | cons p rest ih =>
    intro k r hr
    simp only [loopGo, List.mem_cons] at hr
    rcases hr with rfl | hr
    · rcases hfk : env.fetch k with _ | q
      · rw [processOne_fetch_none env row_index entry_price action entry_time k p hfk]
        exact ⟨by simp, by simp⟩
      · rw [processOne_fetch_some env row_index entry_price action entry_time k p q hfk hep]
        exact ⟨by simp, by simp⟩
    · exact ih (k + 1) r hr

/-- A completed run contains no horizon that raised `ZeroDivisionError` or
skipped via the in-loop `entry_price == 0` check; vacuous for runs that
never reached the loop. -/
def noDivErrors : RunOutcome → Prop
  | RunOutcome.completed hs =>
      ∀ r ∈ hs, r.2.outcome ≠ HorizonOutcome.divError ∧
        r.2.outcome ≠ HorizonOutcome.zeroEntrySkip
  | _ => True

/-- The horizon at position `k` of a run trace was abandoned by a fetch
failure: its recorded outcome carries no cell writes at all. -/
def fetchSkippedAt (rs : List (String × HorizonRes)) (k : Nat) : Prop :=
  ∃ p slept, intervals.get? k = some p ∧
    rs.get? k = some (p.1, ⟨slept, HorizonOutcome.fetchError⟩)

/-- Every horizon whose price fetch succeeded reached the recording step:
its trace entry is an `attempted` outcome targeting columns `8 + 2*j` and
`9 + 2*j`, and each of the two cell values is written whenever its own
first update attempt (and, for the percentage slot, the format call)
succeeds. -/
def recordedOnSuccess (env : Env) (row_index : Nat)
    (rs : List (String × HorizonRes)) : Prop :=
  ∀ j, j < 10 → ∀ q, env.fetch j = some q →
    ∃ p slept cd fr pr, intervals.get? j = some p ∧
      rs.get? j = some (p.1, ⟨slept,
        HorizonOutcome.attempted row_index (8 + 2 * j) (9 + 2 * j) q cd fr pr⟩) ∧
      (env.fmtOk j 0 = true → env.pctUpdOk j 0 = true → fr.writes = 1) ∧
      (env.priceUpdOk j 0 = true → pr.writes = 1)

/-- C4: when the entry-timestamp cell read hits the "exceeds grid limits"
`APIError` (row gone), or yields a non-string (missing) value, or yields a
string that `strptime` cannot parse, the run terminates before any horizon
is processed (outcome `rowNotFound` or `fatal`, never `completed`), and
the `finally` block removes the symbol from the tracking registry. -/
theorem c4_fatal_terminates_and_cleans (env : Env) (row_index : Nat)
    (symbol : String) (entry_price : ℚ) (action : String)
    (tasks : String → Option Nat)
    (h : env.cellRead = CellRead.gridLimits ∨ env.cellRead = CellRead.val none ∨
         ∃ s, env.cellRead = CellRead.val (some s) ∧ env.parseTime s = none) :
    ((update_price_periodically env row_index symbol entry_price action tasks).1
        = RunOutcome.rowNotFound ∨
     (update_price_periodically env row_index symbol entry_price action tasks).1
        = RunOutcome.fatal) ∧
    (update_price_periodically env row_index symbol entry_price action tasks).2 symbol
      = none := by
  constructor
  · rcases h with h | h | ⟨s, h, hp⟩
    · left
      simp [update_price_periodically, h]
    · right
      simp [update_price_periodically, h]
    · right
      simp [update_price_periodically, h, hp]
  · simp [update_price_periodically]

/-- An environment whose very first backend read reports that the target
row no longer exists. -/
def envRowGone : Env :=
  ⟨CellRead.gridLimits, fun _ => some 0, fun _ => 0, fun _ => none,
   fun _ _ => true, fun _ _ => true, fun _ _ => true⟩

/-- C4 (witness): the row-not-found case at a concrete environment and a
registry that does hold the symbol beforehand. -/
theorem c4_witness :
    (envRowGone.cellRead = CellRead.gridLimits) ∧
    ((update_price_periodically envRowGone 5 "BTC" 50000 "buy"
        (fun s => if s = "BTC" then some 7 else none)).1 = RunOutcome.rowNotFound ∨
     (update_price_periodically envRowGone 5 "BTC" 50000 "buy"
        (fun s => if s = "BTC" then some 7 else none)).1 = RunOutcome.fatal) ∧
    (update_price_periodically envRowGone 5 "BTC" 50000 "buy"
        (fun s => if s = "BTC" then some 7 else none)).2 "BTC" = none :=
  ⟨rfl, c4_fatal_terminates_and_cleans envRowGone 5 "BTC" 50000 "buy"
    (fun s => if s = "BTC" then some 7 else none) (Or.inl rfl)⟩

/-- C5: if the entry price passed to the scheduler is exactly zero, it is
replaced by the epsilon `0.000001` before the loop, so no horizon ever
raises a division error (and the in-loop zero-entry skip never fires);
the run is indistinguishable from one started with entry price
`1/1000000`. -/
theorem c5_zero_entry_epsilon (env : Env) (row_index : Nat) (symbol : String)
    (action : String) (tasks : String → Option Nat) (entry_price : ℚ)
    (h : entry_price = 0) :
    noDivErrors
      (update_price_periodically env row_index symbol entry_price action tasks).1 ∧
    (update_price_periodically env row_index symbol entry_price action tasks).1
      = (update_price_periodically env row_index symbol (1 / 1000000) action tasks).1 := by
  subst h
  have hne : (1 / 1000000 : ℚ) ≠ 0 := by norm_num
  constructor
  · rcases hc : env.cellRead with _ | _ | v
    · simp [update_price_periodically, hc, noDivErrors]
    · simp [update_price_periodically, hc, noDivErrors]
    · rcases v with _ | s
      · simp [update_price_periodically, hc, noDivErrors]
      · rcases hp : env.parseTime s with _ | t
        · simp [update_price_periodically, hc, hp, noDivErrors]
        · simp only [update_price_periodically, hc, hp, if_pos rfl, noDivErrors]
          intro r hr
          exact loopGo_no_div env row_index (1 / 1000000) action t hne intervals 0 r hr
  · simp only [update_price_periodically]
    norm_num

/-- C5 (witness): entry price 0 with an all-success environment gives a
run with no division error at any horizon. -/
theorem c5_witness :
    ((0 : ℚ) = 0) ∧
    noDivErrors (update_price_periodically envAllOk 2 "BTC" 0 "buy" (fun _ => none)).1 :=
  ⟨rfl, (c5_zero_entry_epsilon envAllOk 2 "BTC" "buy" (fun _ => none) 0 rfl).1⟩

/-- C6: if the price fetch for horizon `k` fails, only horizon `k` is
skipped — its trace entry is `fetchError` with no writes — while the loop
still runs all 10 horizons and every horizon whose fetch succeeded reaches
the recording step (its writes landing at columns `8 + 2*j` / `9 + 2*j`
when the respective update attempts succeed). -/
theorem c6_per_horizon_isolation (env : Env) (row_index : Nat)
    (entry_price : ℚ) (action : String) (entry_time : Int) (k : Nat)
    (hep : entry_price ≠ 0) (hk : k < 10) (hfk : env.fetch k = none) :
    (loopGo env row_index entry_price action entry_time 0 intervals).length = 10 ∧
    fetchSkippedAt (loopGo env row_index entry_price action entry_time 0 intervals) k ∧
    recordedOnSuccess env row_index
      (loopGo env row_index entry_price action entry_time 0 intervals) := by
  refine ⟨?_, ?_, ?_⟩
  · rw [loopGo_length]
    rfl
  · have hk' : k < intervals.length := by simpa [intervals] using hk
    have hg : intervals.get? k = some (intervals.get ⟨k, hk'⟩) := List.get?_eq_get _
    have h2 := loopGo_get? env row_index entry_price action entry_time intervals 0 k
    rw [hg] at h2
    simp only [Option.map_some', Nat.zero_add] at h2
    rw [processOne_fetch_none env row_index entry_price action entry_time k _ hfk] at h2
    exact ⟨_, _, hg, h2⟩
  · intro j hj q hfj
    have hj' : j < intervals.length := by simpa [intervals] using hj
    have hg : intervals.get? j = some (intervals.get ⟨j, hj'⟩) := List.get?_eq_get _
    obtain ⟨hpc, hqc⟩ := col_at_position j _ hg
    have h2 := loopGo_get? env row_index entry_price action entry_time intervals 0 j
    rw [hg] at h2
    simp only [Option.map_some', Nat.zero_add] at h2
    rw [processOne_fetch_some env row_index entry_price action entry_time j _ q hfj hep,
      hpc, hqc] at h2
    refine ⟨_, _, _, _, _, hg, h2, ?_, ?_⟩
    · intro hfmt hupd
      rw [scu_fmt_first_success _ _ hfmt hupd]
    · intro hupd
      rw [scu_noFmt_first_success _ _ hupd]

/-- Like `envAllOk` but the fetch for horizon position 2 (the 4h horizon)
fails. -/
def envFetchFailAt2 : Env :=
  ⟨CellRead.val (some "2024-01-01 00:00:00"), fun _ => some 1704056400,
   fun _ => 1704060000, fun k => if k = 2 then none else some 51000,
   fun _ _ => true, fun _ _ => true, fun _ _ => true⟩

/-- C6 (witness): with the fetch failing exactly at horizon position 2,
the trace skips that one horizon and records all fetch-successful ones. -/
theorem c6_witness :
    ((50000 : ℚ) ≠ 0) ∧ (2 < 10) ∧ envFetchFailAt2.fetch 2 = none ∧
    ((loopGo envFetchFailAt2 3 50000 "buy" 1704056400 0 intervals).length = 10 ∧
     fetchSkippedAt (loopGo envFetchFailAt2 3 50000 "buy" 1704056400 0 intervals) 2 ∧
     recordedOnSuccess envFetchFailAt2 3
       (loopGo envFetchFailAt2 3 50000 "buy" 1704056400 0 intervals)) :=
  ⟨by norm_num, by norm_num, rfl,
    c6_per_horizon_isolation envFetchFailAt2 3 50000 "buy" 1704056400 2
      (by norm_num) (by norm_num) rfl⟩

lemma ws_toUpper (c : Char) (h : c.isWhitespace = true) :
    (c.toUpper).isWhitespace = true := by
  simp [Char.isWhitespace] at h
  rcases h with ((h | h) | h) | h <;> subst h <;> decide

lemma dropWhile_all (p : Char → Bool) :
    ∀ (l : List Char), (∀ c ∈ l, p c = true) → l.dropWhile p = [] := by
  intro l
  induction l with
  | nil => intro _; rfl
  | cons c rest ih =>
    intro h
    rw [List.dropWhile_cons, if_pos (h c (by simp))]
    exact ih (fun d hd => h d (by simp [hd]))

/-- C9: for an input symbol that is empty or consists only of whitespace,
`get_bybit_price` raises HTTP 503 with detail
"Invalid Bybit data format: Empty symbol provided" and never issues the
outbound request to the market-data endpoint. -/
theorem c9_empty_symbol (symbol : List Char) (resp : HttpOutcome)
    (floatOf : String → Option ℚ)
    (h : ∀ c ∈ symbol, c.isWhitespace = true) :
    get_bybit_price symbol resp floatOf
      = (false,
         Except.error ⟨503, "Invalid Bybit data format: Empty symbol provided"⟩) := by
  have hall : ∀ c ∈ symbol.map Char.toUpper, c.isWhitespace = true := by
    intro c hc
    rcases List.mem_map.1 hc with ⟨d, hd, rfl⟩
    exact ws_toUpper d (h d hd)
  have hstrip : strip (symbol.map Char.toUpper) = [] := by
    unfold strip
    rw [dropWhile_all _ _ hall]
    rfl
  simp [get_bybit_price, hstrip]

/-- C9 (witness): the single-blank symbol triggers the 503 data-format
error with no outbound request. -/
theorem c9_witness :
    (∀ c ∈ [' '], c.isWhitespace = true) ∧
    get_bybit_price [' '] HttpOutcome.otherException (fun _ => none)
      = (false,
         Except.error ⟨503, "Invalid Bybit data format: Empty symbol provided"⟩) :=
  ⟨by decide,
    c9_empty_symbol [' '] HttpOutcome.otherException (fun _ => none) (by decide)⟩

/-- C10: a horizon whose target time is not in the future when the loop
reaches it performs no sleep at all and proceeds straight to the price
fetch (failing fetch → skipped horizon, successful fetch with nonzero
entry → recording step); conversely any sleep the loop does take has a
strictly positive duration. -/
theorem c10_no_wait_when_past (env : Env) (row_index : Nat) (entry_price : ℚ)
    (action : String) (entry_time : Int) (k : Nat) (p : String × Nat) :
    (entry_time + (p.2 : Int) ≤ env.nowAt k →
      (processOne env row_index entry_price action entry_time k p).2.slept = none ∧
      (env.fetch k = none →
        (processOne env row_index entry_price action entry_time k p).2.outcome
          = HorizonOutcome.fetchError) ∧
      (∀ q, env.fetch k = some q → entry_price ≠ 0 →
        (processOne env row_index entry_price action entry_time k p).2.outcome
          = HorizonOutcome.attempted row_index (price_col p) (pct_col p) q
              (pyRound6 ((if pyLower action = "buy"
                          then (q - entry_price) / entry_price
                          else (entry_price - q) / entry_price) * 100 / 100))
              (safe_cell_update true (env.fmtOk k) (env.pctUpdOk k))
              (safe_cell_update false (env.fmtOk k) (env.priceUpdOk k)))) ∧
    ∀ d, (processOne env row_index entry_price action entry_time k p).2.slept = some d →
      0 < d := by
  constructor
  · intro hle
    refine ⟨?_, ?_, ?_⟩
    · rw [processOne_slept, if_neg (by omega)]
    · intro hf
      rw [processOne_fetch_none env row_index entry_price action entry_time k p hf]
    · intro q hf hep
      exact processOne_attempted env row_index entry_price action entry_time k p q hf hep
  · intro d hd
    rw [processOne_slept] at hd
    by_cases hpos : 0 < entry_time + (p.2 : Int) - env.nowAt k
    · rw [if_pos hpos] at hd
      injection hd with hd
      omega
    · rw [if_neg hpos] at hd
      exact absurd hd (by simp)

/-- C10 (witness): with `now` exactly at the 1h target time, the 1h
horizon takes no sleep. -/
theorem c10_witness :
    (1704056400 + ((3600 : Nat) : Int) ≤ envAllOk.nowAt 0) ∧
    (processOne envAllOk 2 50000 "buy" 1704056400 0 ("1h", 3600)).2.slept = none :=
  ⟨by norm_num [envAllOk],
    ((c10_no_wait_when_past envAllOk 2 50000 "buy" 1704056400 0 ("1h", 3600)).1
      (by norm_num [envAllOk])).1⟩
